import Mathlib

/-!
Shallow embedding of `src/app.py` (mars-maas): a Mars-weather HTTP façade
with a TTL cache, a fallible upstream fetch, a field-level normalizer and
four request handlers.  Python JSON values are modelled by `Json`, Python
truthiness by `truthy`, timestamps by `Int`, JSON numbers by `ℚ`.
-/

namespace MarsMaas

/-- JSON values as Python manipulates them (numbers modelled as rationals,
objects as key/value association lists in insertion order). -/
inductive Json where
  | null : Json
  | bool : Bool → Json
  | num : ℚ → Json
  | str : String → Json
  | arr : List Json → Json
  | obj : List (String × Json) → Json

/-- Python truthiness (`if x:`) on JSON values: `None`, `False`, `0`, `""`,
`[]`, `{}` are falsy, everything else truthy. -/
def truthy : Json → Bool
  | .null => false
  | .bool b => b
  | .num q => q ≠ 0
  | .str s => s ≠ ""
  | .arr l => !l.isEmpty
  | .obj l => !l.isEmpty

/-- `d.get(k)` on a Python dict: the value under `k`, or `None` when the
key is absent. -/
def dictGet (d : List (String × Json)) (k : String) : Json :=
  match d.find? (fun p => p.1 = k) with
  | some p => p.2
  | none => Json.null

/-- Decimal digit test. -/
def isDigit (c : Char) : Bool := '0' ≤ c && c ≤ '9'

/-- ASCII whitespace, as stripped by Python `float` around a numeric
string. -/
def isSpace (c : Char) : Bool :=
  c = ' ' || c = '\t' || c = '\n' || c = '\r'

/-- Strip leading and trailing whitespace from a character list. -/
def stripChars (l : List Char) : List Char :=
  ((l.dropWhile isSpace).reverse.dropWhile isSpace).reverse

/-- Numeric value of a digit string. -/
def digitsToNat (l : List Char) : Nat :=
  l.foldl (fun a c => 10 * a + (c.toNat - 48)) 0

/-- Python `float(s)` on a string, modelled for the plain decimal forms
(optional surrounding whitespace, optional sign, digits with at most one
decimal point, at least one digit).  Other accepted spellings of the
Python builtin (exponents, `inf`, `nan`, underscores) are outside the
model; every string the parser rejects yields `none`, matching the
`except`-to-`None` policy of `to_float` in the source. -/
def parseFloat (s : String) : Option ℚ :=
  let cs := stripChars s.data
  let signAndRest : Bool × List Char :=
    match cs with
    | '-' :: t => (true, t)
    | '+' :: t => (false, t)
    | t => (false, t)
  let neg := signAndRest.1
  let body := signAndRest.2
  let intPart := body.takeWhile isDigit
  let rest := body.dropWhile isDigit
  let fracPart? : Option (List Char) :=
    match rest with
    | [] => some []
    | '.' :: t => if t.all isDigit then some t else none
    | _ => none
  match fracPart? with
  | none => none
  | some fracPart =>
    if intPart.isEmpty && fracPart.isEmpty then none
    else
      let v : ℚ := (digitsToNat (intPart ++ fracPart) : ℚ) / ((10 : ℚ) ^ fracPart.length)
      some (if neg then -v else v)

/-- The inner `to_float` of `_normalize_maas`: `float(x)` with every
exception mapped to `None`.  `float` succeeds on numbers, on booleans
(`True ↦ 1.0`, `False ↦ 0.0`) and on numeric strings; it raises (hence
`None` here) on `None`, lists, dicts and non-numeric strings. -/
def to_float : Json → Option ℚ
  | .num q => some q
  | .bool b => some (if b then 1 else 0)
  | .str s => parseFloat s
  | _ => none

/-- Python `None` / a parsed float, as stored in the normalized record. -/
def qToJson : Option ℚ → Json
  | some q => Json.num q
  | none => Json.null

/-- `_normalize_maas(d)`: maps a raw MAAS record (a dict) to the stable
output schema, field by field, exactly as the dict literal in the source. -/
def _normalize_maas (d : List (String × Json)) : Json :=
  Json.obj [
    ("source", Json.str "curiosity_rems_maas"),
    ("sol", dictGet d "sol"),
    ("earth_date", dictGet d "terrestrial_date"),
    ("season", dictGet d "season"),
    ("temperature_c", Json.obj [
      ("min", qToJson (to_float (dictGet d "min_temp"))),
      ("max", qToJson (to_float (dictGet d "max_temp"))),
      ("min_gts", qToJson (to_float (dictGet d "min_gts_temp"))),
      ("max_gts", qToJson (to_float (dictGet d "max_gts_temp")))
    ]),
    ("pressure_pa", qToJson (to_float (dictGet d "pressure"))),
    ("pressure_qual", dictGet d "pressure_string"),
    ("sunrise_local", dictGet d "sunrise"),
    ("sunset_local", dictGet d "sunset"),
    ("uv_index", dictGet d "local_uv_irradiance_index"),
    ("atmo_opacity", dictGet d "atmo_opacity")
  ]

/-- Field access on a JSON object (used to state properties of the
normalized output); `null` off an object or for a missing key. -/
def jget : Json → String → Json
  | .obj l, k => dictGet l k
  | _, _ => Json.null

/-- One row of `CACHE`: the `{"t": time.time(), "v": value}` dict. -/
structure CacheEntry where
  t : Int
  v : Json

/-- The module-level `CACHE` dict, as an association list from keys to
entries (duplicate-free by construction of `cacheSet`). -/
abbrev Cache := List (String × CacheEntry)

/-- `TTL = 15 * 60` seconds. -/
def TTL : Int := 15 * 60

/-- `CACHE.get(key)`. -/
def cacheLookup (c : Cache) (k : String) : Option CacheEntry :=
  (c.find? (fun p => p.1 = k)).map (fun p => p.2)

/-- `CACHE.pop(key, None)` (state effect only). -/
def cacheRemove (c : Cache) (k : String) : Cache :=
  c.filter (fun p => p.1 ≠ k)

/-- `_get_cached(key)` at current time `now`: `None` on a missing row,
`None` plus deletion when `now - row["t"] > TTL`, otherwise `row["v"]`.
Returns the value (or `None`) together with the cache state after the
call. -/
def _get_cached (c : Cache) (now : Int) (k : String) : Option Json × Cache :=
  match cacheLookup c k with
  | none => (none, c)
  | some row =>
    if now - row.t > TTL then (none, cacheRemove c k)
    else (some row.v, c)

/-- `_set_cached(key, value)`: unconditionally overwrite with the current
timestamp. -/
def _set_cached (c : Cache) (now : Int) (k : String) (v : Json) : Cache :=
  (k, ⟨now, v⟩) :: cacheRemove c k

/-- Result of one upstream HTTP GET: a parsed JSON document, or a
`requests.RequestException` with its message (connection error, timeout,
or non-success status raised by `raise_for_status`). -/
inductive UpstreamResult where
  | ok : Json → UpstreamResult
  | err : String → UpstreamResult

/-- What a handler invocation produces. -/
inductive Response where
  /-- A JSON document returned with status 200. -/
  | ok : Json → Response
  /-- A raised `HTTPException(status_code, detail)`. -/
  | httpError : Nat → String → Response
  /-- An unhandled exception (e.g. `AttributeError` when `_normalize_maas`
  receives a non-dict), surfaced by the framework as a 500. -/
  | crash : Response

/-- `_fetch_maas(path)` given the upstream's behaviour `u`: return the
JSON document, or raise `HTTPException(502, "Upstream MAAS error: ...")`
on a `RequestException`. -/
def _fetch_maas (u : String → UpstreamResult) (path : String) :
    Except Response Json :=
  match u path with
  | .ok j => Except.ok j
  | .err e => Except.error (Response.httpError 502 ("Upstream MAAS error: " ++ e))

/-- The `if cached:` test of the handlers: a cache answer counts as a hit
only when it is present and truthy. -/
def hitValue : Option Json → Option Json
  | some v => if truthy v then some v else none
  | none => none

/-- `weather_latest()` at time `now` with cache `c` and upstream `u`.
Returns the response, the cache afterwards, and how many upstream fetches
were performed. -/
def weather_latest (u : String → UpstreamResult) (c : Cache) (now : Int) :
    Response × Cache × Nat :=
  let g := _get_cached c now "latest"
  match hitValue g.1 with
  | some v => (Response.ok v, g.2, 0)
  | none =>
    match _fetch_maas u "/" with
    | .error r => (r, g.2, 1)
    | .ok data =>
      match data with
      | Json.obj fields =>
        let out := _normalize_maas fields
        (Response.ok out, _set_cached g.2 now "latest" out, 1)
      | _ => (Response.crash, g.2, 1)

/-- `data.get("error")` is truthy and `data` is a dict — the explicit
error-indicator test of `weather_by_sol`. -/
def errorFlag : Json → Bool
  | .obj fields => truthy (dictGet fields "error")
  | _ => false

/-- `weather_by_sol(sol)` at time `now` with cache `c` and upstream `u`. -/
def weather_by_sol (u : String → UpstreamResult) (c : Cache) (now : Int)
    (sol : Int) : Response × Cache × Nat :=
  let key := "sol:" ++ toString sol
  let g := _get_cached c now key
  match hitValue g.1 with
  | some v => (Response.ok v, g.2, 0)
  | none =>
    match _fetch_maas u ("/" ++ toString sol) with
    | .error r => (r, g.2, 1)
    | .ok data =>
      if !truthy data || errorFlag data then
        (Response.httpError 404 ("No data for sol " ++ toString sol), g.2, 1)
      else
        match data with
        | Json.obj fields =>
          let out := _normalize_maas fields
          (Response.ok out, _set_cached g.2 now key out, 1)
        | _ => (Response.crash, g.2, 1)

/-- The default of the `sol` query parameter of `/maas` (`Query(0, ge=0)`). -/
def maas_sol_default : Int := 0

/-- The `ge=0` validation FastAPI applies to the `sol` query parameter of
`/maas` before the handler body runs. -/
def maas_validates_sol (sol : Int) : Bool := decide (0 ≤ sol)

/-- The upstream path chosen by `maas`: `"/"` for `sol == 0`, else
`"/{sol}"`. -/
def maas_path (sol : Int) : String :=
  if sol = 0 then "/" else "/" ++ toString sol

/-- `maas(sol)`: raw passthrough.  The body never references `CACHE`; the
cache state is threaded through untouched to make that checkable. -/
def maas (u : String → UpstreamResult) (c : Cache) (sol : Int) :
    Response × Cache × Nat :=
  match _fetch_maas u (maas_path sol) with
  | .error r => (r, c, 1)
  | .ok data =>
    if !truthy data then (Response.httpError 502 "Empty MAAS response", c, 1)
    else (Response.ok data, c, 1)

/-- `ping()` and `healthz()` both return `{"ok": True}` unconditionally. -/
def ping : Response := Response.ok (Json.obj [("ok", Json.bool true)])

/-- `healthz()`. -/
def healthz : Response := Response.ok (Json.obj [("ok", Json.bool true)])

/-- An upstream that answers every path with the same document. -/
def constUpstream (j : Json) : String → UpstreamResult := fun _ => UpstreamResult.ok j

/-- An upstream whose every request fails with the given transport error. -/
def failUpstream (e : String) : String → UpstreamResult := fun _ => UpstreamResult.err e

/-! ### Helper lemmas -/

/-- `_get_cached` on a key with no row answers `None` and leaves the
cache alone. -/
theorem get_cached_none {c : Cache} {k : String} (now : Int)
    (h : cacheLookup c k = none) : _get_cached c now k = (none, c) := by
  unfold _get_cached
  rw [h]

/-- `_get_cached` on a fresh row answers its value and leaves the cache
alone. -/
theorem get_cached_fresh {c : Cache} {k : String} {e : CacheEntry} (now : Int)
    (h : cacheLookup c k = some e) (hfresh : now - e.t ≤ TTL) :
    _get_cached c now k = (some e.v, c) := by
  unfold _get_cached
  rw [h]
  simp only [not_lt.mpr hfresh, if_false, gt_iff_lt, if_neg (not_lt.mpr hfresh)]

/-- `_get_cached` on an expired row answers `None` and pops the row. -/
theorem get_cached_expired {c : Cache} {k : String} {e : CacheEntry} (now : Int)
    (h : cacheLookup c k = some e) (hexp : now - e.t > TTL) :
    _get_cached c now k = (none, cacheRemove c k) := by
  unfold _get_cached
  rw [h]
  simp only [gt_iff_lt, if_pos hexp]

/-- The normalized record is always truthy (a non-empty dict). -/
theorem truthy_normalize (d : List (String × Json)) :
    truthy (_normalize_maas d) = true := rfl

/-- A `_set_cached` row is found again by `cacheLookup`. -/
theorem lookup_set_cached (c : Cache) (now : Int) (k : String) (v : Json) :
    cacheLookup (_set_cached c now k v) k = some ⟨now, v⟩ := by
  unfold _set_cached cacheLookup
  simp [List.find?]

/-- `weather_latest` on a clean miss with a failing upstream: 502, cache
untouched, one fetch. -/
theorem latest_miss_fail (u : String → UpstreamResult) (c : Cache) (now : Int)
    (e : String) (hc : cacheLookup c "latest" = none)
    (hu : u "/" = UpstreamResult.err e) :
    weather_latest u c now =
      (Response.httpError 502 ("Upstream MAAS error: " ++ e), c, 1) := by
  unfold weather_latest _fetch_maas
  rw [get_cached_none now hc, hu]
  rfl

/-- `weather_latest` on a clean miss with a dict document: normalize,
cache, return, one fetch — with no emptiness or error-indicator check. -/
theorem latest_miss_ok (u : String → UpstreamResult) (c : Cache) (now : Int)
    (fields : List (String × Json)) (hc : cacheLookup c "latest" = none)
    (hu : u "/" = UpstreamResult.ok (Json.obj fields)) :
    weather_latest u c now =
      (Response.ok (_normalize_maas fields),
       _set_cached c now "latest" (_normalize_maas fields), 1) := by
  unfold weather_latest _fetch_maas
  rw [get_cached_none now hc, hu]
  rfl

/-- `weather_by_sol` on a clean miss whose fetched document is falsy or
carries a truthy `"error"`: 404, cache untouched, one fetch. -/
theorem by_sol_404 (u : String → UpstreamResult) (c : Cache) (now sol : Int)
    (data : Json) (hc : cacheLookup c ("sol:" ++ toString sol) = none)
    (hu : u ("/" ++ toString sol) = UpstreamResult.ok data)
    (hbad : (!truthy data || errorFlag data) = true) :
    weather_by_sol u c now sol =
      (Response.httpError 404 ("No data for sol " ++ toString sol), c, 1) := by
  unfold weather_by_sol _fetch_maas
  dsimp only
  rw [get_cached_none now hc, hu]
  dsimp only
  rw [hbad]
  rfl

/-- `weather_by_sol` on a clean miss with a failing upstream: 502, cache
untouched, one fetch. -/
theorem by_sol_miss_fail (u : String → UpstreamResult) (c : Cache)
    (now sol : Int) (e : String)
    (hc : cacheLookup c ("sol:" ++ toString sol) = none)
    (hu : u ("/" ++ toString sol) = UpstreamResult.err e) :
    weather_by_sol u c now sol =
      (Response.httpError 502 ("Upstream MAAS error: " ++ e), c, 1) := by
  unfold weather_by_sol _fetch_maas
  dsimp only
  rw [get_cached_none now hc, hu]
  rfl

/-- `weather_by_sol` on a clean miss with a dict document that passes the
empty/error check: normalize, cache, return, one fetch. -/
theorem by_sol_miss_ok (u : String → UpstreamResult) (c : Cache)
    (now sol : Int) (fields : List (String × Json))
    (hc : cacheLookup c ("sol:" ++ toString sol) = none)
    (hu : u ("/" ++ toString sol) = UpstreamResult.ok (Json.obj fields))
    (hgood : (!truthy (Json.obj fields) || errorFlag (Json.obj fields)) = false) :
    weather_by_sol u c now sol =
      (Response.ok (_normalize_maas fields),
       _set_cached c now ("sol:" ++ toString sol) (_normalize_maas fields), 1) := by
  unfold weather_by_sol _fetch_maas
  dsimp only
  rw [get_cached_none now hc, hu]
  dsimp only
  rw [hgood]
  rfl

/-- If `weather_latest` answers a 200 after a clean miss with a fetched
document, then the document was a dict and the answer its normalization. -/
theorem latest_fetch_ok_inv (u : String → UpstreamResult) (c : Cache)
    (now : Int) (v data : Json) (hc : cacheLookup c "latest" = none)
    (hu : u "/" = UpstreamResult.ok data)
    (h1 : (weather_latest u c now).1 = Response.ok v) :
    ∃ fields, data = Json.obj fields ∧ v = _normalize_maas fields := by
  unfold weather_latest _fetch_maas at h1
  rw [get_cached_none now hc, hu] at h1
  cases data with
  | obj fields =>
    refine ⟨fields, rfl, ?_⟩
    dsimp only at h1
    injection h1 with h
    exact h.symm
  | null => exact Response.noConfusion h1
  | bool b => exact Response.noConfusion h1
  | num q => exact Response.noConfusion h1
  | str s => exact Response.noConfusion h1
  | arr l => exact Response.noConfusion h1

/-- If `weather_by_sol` answers a 200 after a clean miss with a fetched
document, then the document was a dict passing the empty/error check and
the answer its normalization. -/
theorem by_sol_fetch_ok_inv (u : String → UpstreamResult) (c : Cache)
    (now sol : Int) (v data : Json)
    (hc : cacheLookup c ("sol:" ++ toString sol) = none)
    (hu : u ("/" ++ toString sol) = UpstreamResult.ok data)
    (h1 : (weather_by_sol u c now sol).1 = Response.ok v) :
    ∃ fields, data = Json.obj fields ∧ v = _normalize_maas fields ∧
      (!truthy data || errorFlag data) = false := by
  unfold weather_by_sol _fetch_maas at h1
  dsimp only at h1
  rw [get_cached_none now hc, hu] at h1
  dsimp only at h1
  by_cases hbad : (!truthy data || errorFlag data) = true
  · rw [if_pos hbad] at h1
    exact Response.noConfusion h1
  · rw [if_neg hbad] at h1
    have hgood : (!truthy data || errorFlag data) = false :=
      Bool.eq_false_iff.mpr hbad
    cases data with
    | obj fields =>
      refine ⟨fields, rfl, ?_, hgood⟩
      dsimp only at h1
      injection h1 with h
      exact h.symm
    | null => exact Response.noConfusion h1
    | bool b => exact Response.noConfusion h1
    | num q => exact Response.noConfusion h1
    | str s => exact Response.noConfusion h1
    | arr l => exact Response.noConfusion h1

/-! ### Claim theorems -/

/-- C1 counterexample.  The claim says the `/maas` handler checks the
cache and, on a miss, stores the fetched document under the computed key.
Concretely: with an empty cache (so every key misses) and an upstream
returning a non-empty document, `maas` returns the fetched document yet
the cache afterwards is still empty — nothing was stored under any key. -/
theorem C1_counterexample :
    (maas (constUpstream (Json.obj [("sol", Json.num 100)])) [] 0).1 =
      Response.ok (Json.obj [("sol", Json.num 100)]) ∧
    (maas (constUpstream (Json.obj [("sol", Json.num 100)])) [] 0).2.1 = [] :=
  ⟨rfl, rfl⟩

/-- C1 (amended): the raw passthrough handler `/maas` does not use the
cache at all — it computes no cache key, leaves the cache unchanged on
every request, always performs exactly one upstream fetch, and returns
the fetched document unchanged when that document is truthy. -/
theorem C1_maas_no_cache (u : String → UpstreamResult) (c : Cache)
    (sol : Int) (data : Json) :
    (maas u c sol).2.1 = c ∧ (maas u c sol).2.2 = 1 ∧
    (u (maas_path sol) = UpstreamResult.ok data → truthy data = true →
      (maas u c sol).1 = Response.ok data) := by
  refine ⟨?_, ?_, ?_⟩
  · unfold maas _fetch_maas
    cases u (maas_path sol) with
    | ok j =>
      dsimp only
      by_cases h : truthy j <;> simp [h]
    | err e => rfl
  · unfold maas _fetch_maas
    cases u (maas_path sol) with
    | ok j =>
      dsimp only
      by_cases h : truthy j <;> simp [h]
    | err e => rfl
  · intro hu ht
    unfold maas _fetch_maas
    rw [hu]
    dsimp only
    rw [ht]
    rfl

/-- C1 witness: the amended theorem at a concrete upstream, cache and
sol. -/
theorem C1_witness :
    (maas (constUpstream (Json.str "doc")) [("latest", ⟨0, Json.str "x"⟩)] 0).2.1 =
      [("latest", ⟨0, Json.str "x"⟩)] ∧
    (maas (constUpstream (Json.str "doc")) [("latest", ⟨0, Json.str "x"⟩)] 0).2.2 = 1 ∧
    (maas (constUpstream (Json.str "doc")) [("latest", ⟨0, Json.str "x"⟩)] 0).1 =
      Response.ok (Json.str "doc") := by
  obtain ⟨h1, h2, h3⟩ :=
    C1_maas_no_cache (constUpstream (Json.str "doc"))
      [("latest", ⟨0, Json.str "x"⟩)] 0 (Json.str "doc")
  exact ⟨h1, h2, h3 rfl rfl⟩

/-- C2 counterexample.  The claim says both normalized endpoints surface
not-found on a document carrying an error indicator, without caching or
normalizing it.  Concretely: `/weather/latest` on a clean miss with
upstream document `{"error": "no data"}` returns the normalized record
with a 200 and writes it to the cache — the cache afterwards is not
empty. -/
theorem C2_counterexample :
    weather_latest (constUpstream (Json.obj [("error", Json.str "no data")])) [] 0 =
      (Response.ok (_normalize_maas [("error", Json.str "no data")]),
       [("latest", ⟨0, _normalize_maas [("error", Json.str "no data")]⟩)], 1) ∧
    (weather_latest (constUpstream (Json.obj [("error", Json.str "no data")])) [] 0).2.1 ≠
      [] :=
  ⟨rfl, fun h => List.noConfusion h⟩

/-- C2 (amended): only the by-sol normalized endpoint applies the check.
If `/weather/{sol}` fetches (on a clean miss) a document that is falsy or
is a dict whose `"error"` entry is truthy, it answers 404 and neither
caches nor normalizes it; `/weather/latest` performs no such check and
normalizes and caches whatever dict the upstream returns. -/
theorem C2_only_by_sol_checks (u : String → UpstreamResult) (c : Cache)
    (now sol : Int) (data : Json) (fields : List (String × Json)) :
    (cacheLookup c ("sol:" ++ toString sol) = none →
      u ("/" ++ toString sol) = UpstreamResult.ok data →
      (!truthy data || errorFlag data) = true →
      weather_by_sol u c now sol =
        (Response.httpError 404 ("No data for sol " ++ toString sol), c, 1)) ∧
    (cacheLookup c "latest" = none →
      u "/" = UpstreamResult.ok (Json.obj fields) →
      weather_latest u c now =
        (Response.ok (_normalize_maas fields),
         _set_cached c now "latest" (_normalize_maas fields), 1)) :=
  ⟨fun hc hu hbad => by_sol_404 u c now sol data hc hu hbad,
   fun hc hu => latest_miss_ok u c now fields hc hu⟩

/-- C2 witness: the amended theorem at a concrete upstream returning
`{"error": "no data"}`, an empty cache, `now = 0`, `sol = 5`. -/
theorem C2_witness :
    weather_by_sol (constUpstream (Json.obj [("error", Json.str "no data")])) [] 0 5 =
      (Response.httpError 404 "No data for sol 5", [], 1) ∧
    weather_latest (constUpstream (Json.obj [("error", Json.str "no data")])) [] 0 =
      (Response.ok (_normalize_maas [("error", Json.str "no data")]),
       _set_cached [] 0 "latest" (_normalize_maas [("error", Json.str "no data")]), 1) := by
  obtain ⟨h1, h2⟩ :=
    C2_only_by_sol_checks (constUpstream (Json.obj [("error", Json.str "no data")]))
      [] 0 5 (Json.obj [("error", Json.str "no data")]) [("error", Json.str "no data")]
  exact ⟨h1 rfl rfl rfl, h2 rfl rfl⟩

/-- C3: `_get_cached` returns the stored value exactly when a row exists
whose age is at most `TTL` (15 minutes) and then leaves the cache alone;
it returns `None` when no row exists (cache unchanged) or when the row's
age exceeds `TTL`, in which case the row is deleted by the read. -/
theorem C3_get_cached_contract (c : Cache) (now : Int) (k : String) :
    (cacheLookup c k = none → _get_cached c now k = (none, c)) ∧
    (∀ e, cacheLookup c k = some e → now - e.t ≤ TTL →
      _get_cached c now k = (some e.v, c)) ∧
    (∀ e, cacheLookup c k = some e → now - e.t > TTL →
      _get_cached c now k = (none, cacheRemove c k)) ∧
    (∀ v, (_get_cached c now k).1 = some v →
      ∃ e, cacheLookup c k = some e ∧ e.v = v ∧ now - e.t ≤ TTL) := by
  refine ⟨fun h => get_cached_none now h,
          fun e h hf => get_cached_fresh now h hf,
          fun e h hx => get_cached_expired now h hx,
          fun v hv => ?_⟩
  unfold _get_cached at hv
  cases h : cacheLookup c k with
  | none => rw [h] at hv; exact Option.noConfusion hv
  | some e =>
    rw [h] at hv
    dsimp only at hv
    by_cases hx : now - e.t > TTL
    · rw [if_pos hx] at hv
      exact Option.noConfusion hv
    · rw [if_neg hx] at hv
      exact ⟨e, rfl, Option.some.inj hv, not_lt.mp hx⟩

/-- C3 witness: the contract evaluated on a one-row cache — a fresh read
at age 100 s returns the value, a read of a missing key returns `None`,
and a read at age 1100 s (past the 900 s TTL) returns `None` and deletes
the row. -/
theorem C3_witness :
    _get_cached [("k", ⟨100, Json.str "v"⟩)] 200 "k" =
      (some (Json.str "v"), [("k", ⟨100, Json.str "v"⟩)]) ∧
    _get_cached [] 200 "k" = (none, []) ∧
    _get_cached [("k", ⟨100, Json.str "v"⟩)] 1200 "k" = (none, []) :=
  ⟨(C3_get_cached_contract [("k", ⟨100, Json.str "v"⟩)] 200 "k").2.1
      ⟨100, Json.str "v"⟩ rfl (by decide),
   (C3_get_cached_contract [] 200 "k").1 rfl,
   (C3_get_cached_contract [("k", ⟨100, Json.str "v"⟩)] 1200 "k").2.2.1
      ⟨100, Json.str "v"⟩ rfl (by decide)⟩

/-- C4: every numeric output field of `_normalize_maas` (temperature
min/max, ground temperatures, pressure) is the float parse of the
corresponding input field when the parse succeeds and `None` on any parse
failure (non-numeric string, `None`, wrong type); in particular
normalizing `{"min_temp": "-70.5", "max_temp": "abc"}` yields
`temperature_c.min = -70.5` and `temperature_c.max` absent. -/
theorem C4_numeric_coercion (d : List (String × Json)) (q : ℚ)
    (l : List Json) (o : List (String × Json)) :
    (to_float (dictGet d "min_temp") = some q →
      jget (jget (_normalize_maas d) "temperature_c") "min" = Json.num q) ∧
    (to_float (dictGet d "min_temp") = none →
      jget (jget (_normalize_maas d) "temperature_c") "min" = Json.null) ∧
    (to_float (dictGet d "max_temp") = some q →
      jget (jget (_normalize_maas d) "temperature_c") "max" = Json.num q) ∧
    (to_float (dictGet d "max_temp") = none →
      jget (jget (_normalize_maas d) "temperature_c") "max" = Json.null) ∧
    (to_float (dictGet d "min_gts_temp") = some q →
      jget (jget (_normalize_maas d) "temperature_c") "min_gts" = Json.num q) ∧
    (to_float (dictGet d "min_gts_temp") = none →
      jget (jget (_normalize_maas d) "temperature_c") "min_gts" = Json.null) ∧
    (to_float (dictGet d "max_gts_temp") = some q →
      jget (jget (_normalize_maas d) "temperature_c") "max_gts" = Json.num q) ∧
    (to_float (dictGet d "max_gts_temp") = none →
      jget (jget (_normalize_maas d) "temperature_c") "max_gts" = Json.null) ∧
    (to_float (dictGet d "pressure") = some q →
      jget (_normalize_maas d) "pressure_pa" = Json.num q) ∧
    (to_float (dictGet d "pressure") = none →
      jget (_normalize_maas d) "pressure_pa" = Json.null) ∧
    jget (jget (_normalize_maas
        [("min_temp", Json.str "-70.5"), ("max_temp", Json.str "abc")])
        "temperature_c") "min" = Json.num (-141/2) ∧
    jget (jget (_normalize_maas
        [("min_temp", Json.str "-70.5"), ("max_temp", Json.str "abc")])
        "temperature_c") "max" = Json.null ∧
    to_float (Json.str "abc") = none ∧
    to_float Json.null = none ∧
    to_float (Json.arr l) = none ∧
    to_float (Json.obj o) = none := by
  have hmin :
      jget (jget (_normalize_maas
          [("min_temp", Json.str "-70.5"), ("max_temp", Json.str "abc")])
          "temperature_c") "min" = Json.num (-141/2) := by
    have h : (-((705 : ℚ) / 10 ^ 1)) = -141/2 := by norm_num
    calc jget (jget (_normalize_maas
            [("min_temp", Json.str "-70.5"), ("max_temp", Json.str "abc")])
            "temperature_c") "min"
        = Json.num (-((705 : ℚ) / 10 ^ 1)) := rfl
      _ = Json.num (-141/2) := by rw [h]
  refine ⟨?_, ?_, ?_, ?_, ?_, ?_, ?_, ?_, ?_, ?_, hmin, rfl, rfl, rfl, rfl, rfl⟩ <;>
    (intro h
     first
     | (show qToJson (to_float (dictGet d "min_temp")) = _; rw [h]; rfl)
     | (show qToJson (to_float (dictGet d "max_temp")) = _; rw [h]; rfl)
     | (show qToJson (to_float (dictGet d "min_gts_temp")) = _; rw [h]; rfl)
     | (show qToJson (to_float (dictGet d "max_gts_temp")) = _; rw [h]; rfl)
     | (show qToJson (to_float (dictGet d "pressure")) = _; rw [h]; rfl))

/-- C4 witness: the coercion conjuncts applied at records holding a
numeric `min_temp` and an absent `min_temp` respectively. -/
theorem C4_witness :
    jget (jget (_normalize_maas [("min_temp", Json.num 5)]) "temperature_c") "min" =
      Json.num 5 ∧
    jget (jget (_normalize_maas []) "temperature_c") "min" = Json.null ∧
    jget (_normalize_maas []) "pressure_pa" = Json.null :=
  ⟨(C4_numeric_coercion [("min_temp", Json.num 5)] 5 [] []).1 rfl,
   (C4_numeric_coercion [] 5 [] []).2.1 rfl,
   (C4_numeric_coercion [] 5 [] []).2.2.2.2.2.2.2.2.2.1 rfl⟩

/-- C5 counterexample.  The claim says any input field of the wrong
shape produces an absent output field.  Concretely: a `season` of the
wrong shape (an array instead of a string) is passed through unchanged —
the output `season` is that array, not absent. -/
theorem C5_counterexample :
    jget (_normalize_maas [("season", Json.arr [Json.num 1])]) "season" =
      Json.arr [Json.num 1] ∧
    Json.arr [Json.num 1] ≠ Json.null :=
  ⟨rfl, fun h => Json.noConfusion h⟩

/-- C5 (amended): `_normalize_maas` is a pure total function that never
fails: its output is always a record; absent input fields produce absent
output fields; numeric fields of the wrong shape (or otherwise failing
to parse) produce absent output fields; the remaining fields pass the
input value through unchanged, whatever its shape. -/
theorem C5_normalize_total (d : List (String × Json)) :
    (∃ fields, _normalize_maas d = Json.obj fields) ∧
    (dictGet d "min_temp" = Json.null →
      jget (jget (_normalize_maas d) "temperature_c") "min" = Json.null) ∧
    (∀ l, dictGet d "max_temp" = Json.arr l →
      jget (jget (_normalize_maas d) "temperature_c") "max" = Json.null) ∧
    (∀ o, dictGet d "pressure" = Json.obj o →
      jget (_normalize_maas d) "pressure_pa" = Json.null) ∧
    jget (_normalize_maas d) "sol" = dictGet d "sol" ∧
    jget (_normalize_maas d) "earth_date" = dictGet d "terrestrial_date" ∧
    jget (_normalize_maas d) "season" = dictGet d "season" ∧
    jget (_normalize_maas d) "pressure_qual" = dictGet d "pressure_string" ∧
    jget (_normalize_maas d) "sunrise_local" = dictGet d "sunrise" ∧
    jget (_normalize_maas d) "sunset_local" = dictGet d "sunset" ∧
    jget (_normalize_maas d) "uv_index" = dictGet d "local_uv_irradiance_index" ∧
    jget (_normalize_maas d) "atmo_opacity" = dictGet d "atmo_opacity" := by
  refine ⟨⟨_, rfl⟩, ?_, ?_, ?_, rfl, rfl, rfl, rfl, rfl, rfl, rfl, rfl⟩
  · intro h
    show qToJson (to_float (dictGet d "min_temp")) = _
    rw [h]
    rfl
  · intro l h
    show qToJson (to_float (dictGet d "max_temp")) = _
    rw [h]
    rfl
  · intro o h
    show qToJson (to_float (dictGet d "pressure")) = _
    rw [h]
    rfl

/-- C5 witness: the amended theorem at a record whose `min_temp` is
absent, whose `max_temp` is an array and whose `pressure` is a dict. -/
theorem C5_witness :
    jget (jget (_normalize_maas
        [("max_temp", Json.arr []), ("pressure", Json.obj [])])
        "temperature_c") "min" = Json.null ∧
    jget (jget (_normalize_maas
        [("max_temp", Json.arr []), ("pressure", Json.obj [])])
        "temperature_c") "max" = Json.null ∧
    jget (_normalize_maas
        [("max_temp", Json.arr []), ("pressure", Json.obj [])])
        "pressure_pa" = Json.null := by
  obtain ⟨-, h1, h2, h3, -⟩ :=
    C5_normalize_total [("max_temp", Json.arr []), ("pressure", Json.obj [])]
  exact ⟨h1 rfl, h2 [] rfl, h3 [] rfl⟩

/-- C6: on a cache miss (including a miss through expiry), an upstream
fetch failure makes each handler raise a 502 gateway error carrying the
upstream cause; nothing is written to the cache (on a clean miss the
cache is fully unchanged), and no expired entry is served in place of
the error. -/
theorem C6_upstream_failure (u : String → UpstreamResult) (c : Cache)
    (now sol : Int) (e : String) :
    (hitValue (_get_cached c now "latest").1 = none →
      u "/" = UpstreamResult.err e →
      weather_latest u c now =
        (Response.httpError 502 ("Upstream MAAS error: " ++ e),
         (_get_cached c now "latest").2, 1)) ∧
    (hitValue (_get_cached c now ("sol:" ++ toString sol)).1 = none →
      u ("/" ++ toString sol) = UpstreamResult.err e →
      weather_by_sol u c now sol =
        (Response.httpError 502 ("Upstream MAAS error: " ++ e),
         (_get_cached c now ("sol:" ++ toString sol)).2, 1)) ∧
    (cacheLookup c "latest" = none → u "/" = UpstreamResult.err e →
      weather_latest u c now =
        (Response.httpError 502 ("Upstream MAAS error: " ++ e), c, 1)) ∧
    (u (maas_path sol) = UpstreamResult.err e →
      maas u c sol =
        (Response.httpError 502 ("Upstream MAAS error: " ++ e), c, 1)) := by
  refine ⟨?_, ?_, ?_, ?_⟩
  · intro hm hu
    unfold weather_latest _fetch_maas
    dsimp only
    rw [hm, hu]
  · intro hm hu
    unfold weather_by_sol _fetch_maas
    dsimp only
    rw [hm, hu]
  · intro hc hu
    exact latest_miss_fail u c now e hc hu
  · intro hu
    unfold maas _fetch_maas
    rw [hu]

/-- C6 witness: a timed-out upstream on `/weather/latest`,
`/weather/3` and `/maas?sol=3`, each from a cache holding only an
expired `latest` row (age 1000 s > 900 s TTL) or, for the clean-miss
conjunct, from an empty cache. -/
theorem C6_witness :
    weather_latest (failUpstream "timeout") [("latest", ⟨0, Json.str "old"⟩)] 1000 =
      (Response.httpError 502 "Upstream MAAS error: timeout", [], 1) ∧
    weather_by_sol (failUpstream "timeout") [] 0 3 =
      (Response.httpError 502 "Upstream MAAS error: timeout", [], 1) ∧
    weather_latest (failUpstream "timeout") [] 0 =
      (Response.httpError 502 "Upstream MAAS error: timeout", [], 1) ∧
    maas (failUpstream "timeout") [] 3 =
      (Response.httpError 502 "Upstream MAAS error: timeout", [], 1) := by
  obtain ⟨h1, -, -, -⟩ :=
    C6_upstream_failure (failUpstream "timeout") [("latest", ⟨0, Json.str "old"⟩)]
      1000 3 "timeout"
  obtain ⟨-, h2, h3, h4⟩ :=
    C6_upstream_failure (failUpstream "timeout") [] 0 3 "timeout"
  exact ⟨h1 rfl rfl, h2 rfl rfl, h3 rfl rfl, h4 rfl⟩

/-- C7 counterexample.  The claim says any mapping with an `"error"` key
yields a 404 with nothing cached.  Concretely: `/weather/5` on a clean
miss with upstream document `{"error": ""}` — a mapping with an
`"error"` key whose value is falsy — is normalized, cached and answered
with a 200; the cache afterwards is not empty. -/
theorem C7_counterexample :
    weather_by_sol (constUpstream (Json.obj [("error", Json.str "")])) [] 0 5 =
      (Response.ok (_normalize_maas [("error", Json.str "")]),
       [("sol:5", ⟨0, _normalize_maas [("error", Json.str "")]⟩)], 1) ∧
    (weather_by_sol (constUpstream (Json.obj [("error", Json.str "")])) [] 0 5).2.1 ≠
      [] :=
  ⟨rfl, fun h => List.noConfusion h⟩

/-- C7 (amended): when the by-sol endpoint's upstream fetch succeeds (on
a clean miss) but returns an empty/falsy document or a mapping whose
`"error"` key holds a truthy value, the handler returns a 404 — not a
crash — and writes nothing to the cache. -/
theorem C7_by_sol_not_found (u : String → UpstreamResult) (c : Cache)
    (now sol : Int) (data : Json)
    (hc : cacheLookup c ("sol:" ++ toString sol) = none)
    (hu : u ("/" ++ toString sol) = UpstreamResult.ok data)
    (hbad : truthy data = false ∨ errorFlag data = true) :
    weather_by_sol u c now sol =
      (Response.httpError 404 ("No data for sol " ++ toString sol), c, 1) := by
  refine by_sol_404 u c now sol data hc hu ?_
  cases hbad with
  | inl h => simp [h]
  | inr h => simp [h]

/-- C7 witness: the amended theorem at `sol = 5` for an upstream
returning the empty dict and one returning `{"error": "no data"}`. -/
theorem C7_witness :
    weather_by_sol (constUpstream (Json.obj [])) [] 0 5 =
      (Response.httpError 404 "No data for sol 5", [], 1) ∧
    weather_by_sol (constUpstream (Json.obj [("error", Json.str "no data")])) [] 7 5 =
      (Response.httpError 404 "No data for sol 5", [], 1) :=
  ⟨C7_by_sol_not_found (constUpstream (Json.obj [])) [] 0 5 (Json.obj [])
      rfl rfl (Or.inl rfl),
   C7_by_sol_not_found (constUpstream (Json.obj [("error", Json.str "no data")]))
      [] 7 5 (Json.obj [("error", Json.str "no data")]) rfl rfl (Or.inr rfl)⟩

/-- C8: for `/maas`, the `sol` query parameter defaults to 0 and is
validated to be ≥ 0; `sol = 0` fetches upstream path `"/"` and any other
sol fetches `"/{sol}"`; a truthy document is returned without
normalization exactly as fetched; a successful but empty (falsy)
document yields a 502 gateway error, not a 404. -/
theorem C8_raw_passthrough (u : String → UpstreamResult) (c : Cache)
    (sol : Int) (data : Json) :
    maas_sol_default = 0 ∧
    (maas_validates_sol sol = true ↔ 0 ≤ sol) ∧
    maas_path 0 = "/" ∧
    (sol ≠ 0 → maas_path sol = "/" ++ toString sol) ∧
    (u (maas_path sol) = UpstreamResult.ok data → truthy data = true →
      maas u c sol = (Response.ok data, c, 1)) ∧
    (u (maas_path sol) = UpstreamResult.ok data → truthy data = false →
      maas u c sol = (Response.httpError 502 "Empty MAAS response", c, 1)) := by
  refine ⟨rfl, by simp [maas_validates_sol], rfl, ?_, ?_, ?_⟩
  · intro h
    unfold maas_path
    rw [if_neg h]
  · intro hu ht
    unfold maas _fetch_maas
    rw [hu]
    dsimp only
    rw [ht]
    rfl
  · intro hu ht
    unfold maas _fetch_maas
    rw [hu]
    dsimp only
    rw [ht]
    rfl

/-- C8 witness: the passthrough conjuncts at `sol = 7` with a non-empty
document and at `sol = 0` with an empty one. -/
theorem C8_witness :
    maas_path 7 = "/7" ∧
    maas (constUpstream (Json.obj [("sol", Json.num 7)])) [] 7 =
      (Response.ok (Json.obj [("sol", Json.num 7)]), [], 1) ∧
    maas (constUpstream (Json.obj [])) [] 0 =
      (Response.httpError 502 "Empty MAAS response", [], 1) := by
  obtain ⟨-, -, -, hp, hok, -⟩ :=
    C8_raw_passthrough (constUpstream (Json.obj [("sol", Json.num 7)])) [] 7
      (Json.obj [("sol", Json.num 7)])
  obtain ⟨-, -, -, -, -, hempty⟩ :=
    C8_raw_passthrough (constUpstream (Json.obj [])) [] 0 (Json.obj [])
  exact ⟨hp (by decide), hok rfl rfl, hempty rfl rfl⟩

/-- C9: if a latest or by-sol request starting from a cache with no row
for its key completes successfully (a 200), it performed exactly one
upstream fetch, and a second request with the same parameters within the
TTL window returns the identical value from the cache with zero further
upstream fetches — one upstream invocation across the two calls. -/
theorem C9_idempotence (u : String → UpstreamResult) (c : Cache)
    (t1 t2 sol : Int) (v : Json) :
    (cacheLookup c "latest" = none →
      (weather_latest u c t1).1 = Response.ok v →
      t2 - t1 ≤ TTL →
      (weather_latest u c t1).2.2 = 1 ∧
      weather_latest u (weather_latest u c t1).2.1 t2 =
        (Response.ok v, (weather_latest u c t1).2.1, 0)) ∧
    (cacheLookup c ("sol:" ++ toString sol) = none →
      (weather_by_sol u c t1 sol).1 = Response.ok v →
      t2 - t1 ≤ TTL →
      (weather_by_sol u c t1 sol).2.2 = 1 ∧
      weather_by_sol u (weather_by_sol u c t1 sol).2.1 t2 sol =
        (Response.ok v, (weather_by_sol u c t1 sol).2.1, 0)) := by
  constructor
  · intro hc h1 hgap
    cases hu : u "/" with
    | err e =>
      rw [latest_miss_fail u c t1 e hc hu] at h1
      exact Response.noConfusion h1
    | ok data =>
      obtain ⟨fields, rfl, rfl⟩ := latest_fetch_ok_inv u c t1 v data hc hu h1
      rw [latest_miss_ok u c t1 fields hc hu]
      refine ⟨rfl, ?_⟩
      dsimp only
      unfold weather_latest
      rw [get_cached_fresh t2
        (lookup_set_cached c t1 "latest" (_normalize_maas fields)) hgap]
      rfl
  · intro hc h1 hgap
    cases hu : u ("/" ++ toString sol) with
    | err e =>
      rw [by_sol_miss_fail u c t1 sol e hc hu] at h1
      exact Response.noConfusion h1
    | ok data =>
      obtain ⟨fields, rfl, rfl, hgood⟩ :=
        by_sol_fetch_ok_inv u c t1 sol v data hc hu h1
      rw [by_sol_miss_ok u c t1 sol fields hc hu hgood]
      refine ⟨rfl, ?_⟩
      dsimp only
      unfold weather_by_sol
      dsimp only
      rw [get_cached_fresh t2
        (lookup_set_cached c t1 ("sol:" ++ toString sol) (_normalize_maas fields)) hgap]
      rfl

/-- C9 witness: a concrete upstream document `{"sol": 5}`, empty cache,
first call at `t = 0`, second at `t = 100` (within the 900 s TTL), for
`/weather/latest` and `/weather/3`. -/
theorem C9_witness :
    (weather_latest (constUpstream (Json.obj [("sol", Json.num 5)])) [] 0).2.2 = 1 ∧
    weather_latest (constUpstream (Json.obj [("sol", Json.num 5)]))
        [("latest", ⟨0, _normalize_maas [("sol", Json.num 5)]⟩)] 100 =
      (Response.ok (_normalize_maas [("sol", Json.num 5)]),
       [("latest", ⟨0, _normalize_maas [("sol", Json.num 5)]⟩)], 0) ∧
    (weather_by_sol (constUpstream (Json.obj [("sol", Json.num 5)])) [] 0 3).2.2 = 1 ∧
    weather_by_sol (constUpstream (Json.obj [("sol", Json.num 5)]))
        [("sol:3", ⟨0, _normalize_maas [("sol", Json.num 5)]⟩)] 100 3 =
      (Response.ok (_normalize_maas [("sol", Json.num 5)]),
       [("sol:3", ⟨0, _normalize_maas [("sol", Json.num 5)]⟩)], 0) := by
  obtain ⟨hl, hs⟩ :=
    C9_idempotence (constUpstream (Json.obj [("sol", Json.num 5)])) [] 0 100 3
      (_normalize_maas [("sol", Json.num 5)])
  obtain ⟨hl1, hl2⟩ := hl rfl rfl (by decide)
  obtain ⟨hs1, hs2⟩ := hs rfl rfl (by decide)
  exact ⟨hl1, hl2, hs1, hs2⟩

/-- C10: for every input dict, the normalizer's output is a non-empty
record whose top-level keys are exactly `source`, `sol`, `earth_date`,
`season`, `temperature_c`, `pressure_pa`, `pressure_qual`,
`sunrise_local`, `sunset_local`, `uv_index`, `atmo_opacity`, with
`source` always `"curiosity_rems_maas"`; consequently a cached
normalized value is truthy and never misclassified as a miss by the
handlers' truthiness-based hit check. -/
theorem C10_normalize_invariants (d : List (String × Json)) :
    (∃ l, _normalize_maas d = Json.obj l ∧
      l.map Prod.fst =
        ["source", "sol", "earth_date", "season", "temperature_c",
         "pressure_pa", "pressure_qual", "sunrise_local", "sunset_local",
         "uv_index", "atmo_opacity"] ∧
      l ≠ []) ∧
    jget (_normalize_maas d) "source" = Json.str "curiosity_rems_maas" ∧
    truthy (_normalize_maas d) = true ∧
    hitValue (some (_normalize_maas d)) = some (_normalize_maas d) :=
  ⟨⟨_, rfl, rfl, fun h => List.noConfusion h⟩, rfl, rfl, rfl⟩

end MarsMaas

